import Mathlib

/-!
Verification of the Titan event-bus / plugin-manager / goal-scheduler core.

The Python sources are shallowly embedded: Python `str` is modelled as
`List Char`, Python `dict` values as association lists, wall-clock readings
are explicit arguments, and the Redis / subprocess side effects of the
processor are recorded as an explicit effect trace.  Float-valued token
and time arithmetic of the rate limiter is modelled over an arbitrary
linearly ordered ring.
-/

/-- Python `str` is modelled as its character sequence. -/
abbrev Str := List Char

/-- Decimal digit character, used to render integers the way Python `str` does. -/
def digitChar : Nat → Char
  | 0 => '0' | 1 => '1' | 2 => '2' | 3 => '3' | 4 => '4'
  | 5 => '5' | 6 => '6' | 7 => '7' | 8 => '8' | _ => '9'

/-- Fuel-driven accumulator for `natChars`; the fuel dominates the number of digits. -/
def natCharsAux : Nat → Nat → List Char → List Char
  | 0, _, acc => acc
  | fuel + 1, n, acc =>
    if n < 10 then digitChar n :: acc
    else natCharsAux fuel (n / 10) (digitChar (n % 10) :: acc)

/-- Decimal rendering of a natural number, as Python `str(n)` produces it. -/
def natChars (n : Nat) : Str :=
  natCharsAux (n + 1) n []

/-- Decimal rendering of an integer, as Python `str(n)` produces it. -/
def intChars (n : Int) : Str :=
  if n < 0 then '-' :: natChars n.natAbs else natChars n.natAbs

/-- Python `str.strip()` with no arguments: remove surrounding whitespace. -/
def pyStrip (s : Str) : Str :=
  ((s.dropWhile Char.isWhitespace).reverse.dropWhile Char.isWhitespace).reverse

/-- Python `str.rstrip(c)`: remove every trailing occurrence of `c`. -/
def pyRstrip (c : Char) (s : Str) : Str :=
  (s.reverse.dropWhile (· == c)).reverse

/-- Python `str.split()` with no arguments, restricted to the space separator:
split on runs of spaces and drop empty fields. -/
def pySplit (s : Str) : List Str :=
  (s.splitOn ' ').filter (· ≠ [])

/-- Digit-string accumulator for `parseInt`. -/
def parseDigitsAux : List Char → Nat → Option Nat
  | [], acc => some acc
  | c :: cs, acc =>
    if '0' ≤ c ∧ c ≤ '9' then parseDigitsAux cs (acc * 10 + (c.toNat - 48))
    else none

/-- Parse a non-empty all-digit string to a natural number. -/
def parseDigits (s : Str) : Option Nat :=
  if s = [] then none else parseDigitsAux s 0

/-- Python `int(s)` on an optionally signed decimal literal; `none` models the
`ValueError` that `int` raises on malformed input. -/
def parseInt : Str → Option Int
  | '-' :: rest => (parseDigits rest).map (fun n => -(n : Int))
  | '+' :: rest => (parseDigits rest).map (fun n => (n : Int))
  | s => (parseDigits s).map (fun n => (n : Int))

/-- Python heterogeneous values (JSON-like), enough for event payloads and
step results: strings, integers, `None`, and dicts. -/
inductive PyVal where
  | str : Str → PyVal
  | int : Int → PyVal
  | nil : PyVal
  | dict : List (Str × PyVal) → PyVal

/-- Python dict assignment `d[k] = v`: replace the binding if the key exists,
otherwise append it. -/
def assocSet (m : List (Str × PyVal)) (k : Str) (v : PyVal) : List (Str × PyVal) :=
  match m with
  | [] => [(k, v)]
  | (k', v') :: rest => if k' == k then (k, v) :: rest else (k', v') :: assocSet rest k v

/-- Optional string as a Python value (`None` for absent). -/
def optStrVal : Option Str → PyVal
  | none => PyVal.nil
  | some s => PyVal.str s

namespace TitanBus

/-- EventPriority from titan_bus/event.py. -/
inductive EventPriority where
  | high
  | medium
  | low
deriving DecidableEq

/-- The string `.value` of an EventPriority member. -/
def EventPriority.value : EventPriority → Str
  | .high => "high".data
  | .medium => "medium".data
  | .low => "low".data

/-- EventMeta from titan_bus/event.py. -/
structure EventMeta where
  priority : EventPriority := EventPriority.medium
  retries : Nat := 0
  trace_id : Option Str := none
  source : Option Str := none

/-- Event from titan_bus/event.py; the timestamp is carried in its serialized
ISO form. -/
structure Event where
  event_id : Str
  schema_version : Nat := 1
  topic : Str
  event_type : Str
  timestamp : Str
  payload : List (Str × PyVal)
  meta : EventMeta := {}

/-- Event.validate_topic from titan_bus/event.py: reject blank topics, then
require the topic to end in `.v{i}` for some `i` in `range(1, 10)`. -/
def validate_topic (v : Str) : Bool :=
  if v = [] ∨ pyStrip v = [] then false
  else (List.range' 1 9).any (fun i => ('.' :: 'v' :: natChars i).isSuffixOf v)

/-- StreamConfig.validate_versioned_name from titan_bus/config.py: require the
stream name to end in `.v{i}` for some `i` in `range(1, 10)`. -/
def validate_versioned_name (v : Str) : Bool :=
  (List.range' 1 9).any (fun i => ('.' :: 'v' :: natChars i).isSuffixOf v)

/-- The default `priority_weights` of EventBusConfig from titan_bus/config.py. -/
def default_priority_weights : List (Str × Nat) :=
  [("high".data, 3), ("medium".data, 2), ("low".data, 1)]

/-- The sort key of `_process_batch`:
`self.priority_weights.get(x[1].meta.priority.value, 0)`. -/
def batchWeight (priority_weights : List (Str × Nat)) (x : Str × Event) : Nat :=
  ((priority_weights.lookup x.2.meta.priority.value).getD 0)

/-- One insertion step of a stable descending sort: the new element goes after
every earlier element of weight ≥ its own. -/
def insertDesc {α : Type} (w : α → Nat) (x : α) : List α → List α
  | [] => [x]
  | y :: ys => if w x ≤ w y then y :: insertDesc w x ys else x :: y :: ys

/-- Stable sort by descending weight, modelling Python
`sorted(events, key=weight, reverse=True)` in `_process_batch`
(Python's sort is specified stable, also under `reverse=True`). -/
def sortDesc {α : Type} (w : α → Nat) (l : List α) : List α :=
  l.foldl (fun acc x => insertDesc w x acc) []

/-- The batch ordering computed by `EventProcessor._process_batch` on the
parsed `(msg_id, event)` pairs. -/
def sortBatch (priority_weights : List (Str × Nat)) (events : List (Str × Event)) :
    List (Str × Event) :=
  sortDesc (batchWeight priority_weights) events

/-- RateLimiter from titan_bus/processor.py.  The Python fields are floats
(monotonic seconds and fractional tokens); they are modelled over an arbitrary
linearly ordered ring `α`. -/
structure RateLimiter (α : Type) where
  rate : α
  burst : α
  tokens : α
  last_update : α

/-- RateLimiter.acquire: refill from the elapsed time, cap at the burst size,
and take `count` tokens when enough are available.  `now` is the
`time.monotonic()` reading. -/
def RateLimiter.acquire {α : Type} [LinearOrderedRing α] (rl : RateLimiter α)
    (now : α) (count : α) : Bool × RateLimiter α :=
  let elapsed := now - rl.last_update
  let tokens := min rl.burst (rl.tokens + elapsed * rl.rate)
  if count ≤ tokens then
    (true, { rl with tokens := tokens - count, last_update := now })
  else
    (false, { rl with tokens := tokens, last_update := now })

/-- A registered topic handler: its `__name__` and its behaviour on an event,
`Except.error` modelling a raised exception. -/
structure Handler where
  name : Str
  run : Event → Except Str Unit

/-- Observable side effects of `_process_single_event`, in order: the
back-pressure sleep (milliseconds), each handler invocation, the Redis
`xack` of the origin entry, and the Redis `xadd` onto a stream. -/
inductive Effect where
  | sleep : Nat → Effect
  | handler_run : Str → Bool → Effect
  | xack : Str → Str → Effect
  | xadd : Str → Event → Effect

/-- Run the registered handlers in order, as the handler loop of
`_process_single_event` does: stop at the first handler that raises and
report `ConsumerError(f"Handler {handler.__name__} failed")`. -/
def runHandlers : List Handler → Event → List Effect × Option Str
  | [], _ => ([], none)
  | h :: rest, ev =>
    match h.run ev with
    | Except.ok _ =>
      let r := runHandlers rest ev
      (Effect.handler_run h.name true :: r.1, r.2)
    | Except.error _ =>
      ([Effect.handler_run h.name false], some ("Handler ".data ++ h.name ++ " failed".data))

/-- Event.model_dump from pydantic, applied to the embedded Event. -/
def model_dump (ev : Event) : PyVal :=
  PyVal.dict
    [ ("event_id".data, PyVal.str ev.event_id)
    , ("schema_version".data, PyVal.int ev.schema_version)
    , ("topic".data, PyVal.str ev.topic)
    , ("event_type".data, PyVal.str ev.event_type)
    , ("timestamp".data, PyVal.str ev.timestamp)
    , ("payload".data, PyVal.dict ev.payload)
    , ("meta".data, PyVal.dict
        [ ("priority".data, PyVal.str ev.meta.priority.value)
        , ("retries".data, PyVal.int ev.meta.retries)
        , ("trace_id".data, optStrVal ev.meta.trace_id)
        , ("source".data, optStrVal ev.meta.source) ])
    ]

/-- The dead-letter event built by `EventProcessor._send_to_dlq`:
`event.model_copy` with the DLQ topic, event_type `"dead_letter"` and the
wrapping payload; `utcnow` is the `datetime.utcnow().isoformat()` reading. -/
def send_to_dlq (dead_letter_stream : Str) (original_topic : Str) (msg_id : Str)
    (ev : Event) (error : Str) (utcnow : Str) : Event :=
  { ev with
    topic := dead_letter_stream
    event_type := "dead_letter".data
    payload :=
      [ ("original_topic".data, PyVal.str original_topic)
      , ("original_msg_id".data, PyVal.str msg_id)
      , ("original_event".data, model_dump ev)
      , ("error".data, PyVal.str error)
      , ("failed_at".data, PyVal.str utcnow) ] }

/-- EventProcessor._process_single_event as its effect trace.  `now1`, `now2`
are the two `time.monotonic()` readings of the global and topic `acquire`
calls, `utcnow` the failure timestamp reading.  Denied rate limiting sleeps
100 ms and returns; an empty handler list acknowledges and returns; a handler
failure with `retries ≥ retry_limit` appends the dead-letter event and then
acknowledges, and with fewer retries leaves the entry unacknowledged. -/
def process_single_event {α : Type} [LinearOrderedRing α] (dead_letter_stream : Str)
    (retry_limit : Nat) (global_limiter topic_limiter : RateLimiter α) (now1 now2 : α)
    (handlers : List Handler) (topic msg_id : Str) (event : Event) (utcnow : Str) :
    List Effect :=
  if (global_limiter.acquire now1 1).1 = false then [Effect.sleep 100]
  else if (topic_limiter.acquire now2 1).1 = false then [Effect.sleep 100]
  else if handlers.isEmpty then [Effect.xack topic msg_id]
  else
    match runHandlers handlers event with
    | (effects, none) => effects ++ [Effect.xack topic msg_id]
    | (effects, some err) =>
      if retry_limit ≤ event.meta.retries then
        effects ++
          [ Effect.xadd dead_letter_stream
              (send_to_dlq dead_letter_stream topic msg_id event err utcnow)
          , Effect.xack topic msg_id ]
      else
        effects

end TitanBus

namespace PluginManager

/-- PluginState from plugin_manager/circuit_breaker.py. -/
inductive PluginState where
  | active
  | disabled
  | paused
deriving DecidableEq

/-- One entry of `failure_reasons` as built by `record_failure`; the
`timestamp` is the `datetime.utcnow()` reading and `etype` the exception
class name (`type` is reserved in Lean). -/
structure ErrorEntry where
  timestamp : Nat
  error : Str
  etype : Str
  event : Option Str
deriving DecidableEq

/-- PluginHealth from plugin_manager/circuit_breaker.py; datetimes are
modelled as naturals. -/
structure PluginHealth where
  name : Str
  state : PluginState := PluginState.active
  consecutive_failures : Nat := 0
  total_failures : Nat := 0
  total_executions : Nat := 0
  last_failure : Option Nat := none
  last_success : Option Nat := none
  disabled_until : Option Nat := none
  failure_reasons : List ErrorEntry := []
deriving DecidableEq

/-- CircuitBreaker from plugin_manager/circuit_breaker.py: the tuning knobs
and the in-memory `health_data` dict. -/
structure CircuitBreaker where
  failure_threshold : Nat := 5
  reset_timeout : Nat := 300
  max_failure_history : Nat := 10
  health_data : List (Str × PluginHealth) := []
deriving DecidableEq

/-- Replace the health record of `name` in the `health_data` dict (the Python
code mutates the looked-up record in place). -/
def setHealth : List (Str × PluginHealth) → Str → PluginHealth → List (Str × PluginHealth)
  | [], n, h => [(n, h)]
  | (k, v) :: rest, n, h => if k == n then (n, h) :: rest else (k, v) :: setHealth rest n h

/-- CircuitBreaker.record_success: a plugin with no health record is left
untouched; otherwise reset the consecutive-failure counter, bump the
execution counter, stamp `last_success`, and re-activate a PAUSED plugin
whose `disabled_until` has passed (`utcnow() > disabled_until`). -/
def record_success (cb : CircuitBreaker) (now : Nat) (plugin_name : Str) : CircuitBreaker :=
  match cb.health_data.lookup plugin_name with
  | none => cb
  | some health =>
    let h1 := { health with
      consecutive_failures := 0
      total_executions := health.total_executions + 1
      last_success := some now }
    let h2 :=
      if h1.state = PluginState.paused then
        match h1.disabled_until with
        | some d =>
          if d < now then { h1 with state := PluginState.active, disabled_until := none }
          else h1
        | none => h1
      else h1
    { cb with health_data := setHealth cb.health_data plugin_name h2 }

/-- CircuitBreaker.record_failure: a plugin with no health record is left
untouched and reported `false`; otherwise bump the counters, append the error
to the bounded `failure_reasons` history, and when the consecutive count
reaches `failure_threshold` move to DISABLED with
`disabled_until = now + reset_timeout`, reporting `true`. -/
def record_failure (cb : CircuitBreaker) (now : Nat) (plugin_name : Str)
    (error : Str) (etype : Str) (event_type : Option Str) : CircuitBreaker × Bool :=
  match cb.health_data.lookup plugin_name with
  | none => (cb, false)
  | some health =>
    let h1 := { health with
      consecutive_failures := health.consecutive_failures + 1
      total_failures := health.total_failures + 1
      total_executions := health.total_executions + 1
      last_failure := some now }
    let reasons := h1.failure_reasons ++ [⟨now, error, etype, event_type⟩]
    let reasons :=
      if cb.max_failure_history < reasons.length then
        reasons.drop (reasons.length - cb.max_failure_history)
      else reasons
    let h2 := { h1 with failure_reasons := reasons }
    if cb.failure_threshold ≤ h2.consecutive_failures then
      let h3 := { h2 with
        state := PluginState.disabled
        disabled_until := some (now + cb.reset_timeout) }
      ({ cb with health_data := setHealth cb.health_data plugin_name h3 }, true)
    else
      ({ cb with health_data := setHealth cb.health_data plugin_name h2 }, false)

/-- CircuitBreaker.is_plugin_healthy: a plugin with no health record is
healthy; DISABLED is unhealthy; PAUSED is unhealthy while
`utcnow() < disabled_until`; everything else is healthy. -/
def is_plugin_healthy (cb : CircuitBreaker) (now : Nat) (plugin_name : Str) : Bool :=
  match cb.health_data.lookup plugin_name with
  | none => true
  | some health =>
    if health.state = PluginState.disabled then false
    else if health.state = PluginState.paused then
      match health.disabled_until with
      | some d => if now < d then false else true
      | none => true
    else true

/-- SandboxConfig from plugin_manager/config.py. -/
structure SandboxConfig where
  runtime : Str := "docker".data
  default_cpu : Str := "50m".data
  default_memory : Str := "128Mi".data
  timeout_sec : Nat := 60
  network_mode : Str := "none".data
  read_only : Bool := true
  no_new_privileges : Bool := true
  drop_capabilities : List Str := ["ALL".data]
  tmp_size : Str := "64Mi".data
  work_dir : Str := "/workspace".data

/-- PluginConfig from plugin_manager/models.py (the scalar fields the
executor consults; triggers, resources and permissions only shape the
container command line). -/
structure PluginConfig where
  name : Str
  version : Str
  description : Option Str := none
  author : Option Str := none
  entrypoint : Str
  image : Str := "python:3.12-slim".data
  requirements : List Str := []
  timeout_sec : Nat := 60

/-- PluginResult from plugin_manager/models.py; `duration_ms` is kept in
whole milliseconds. -/
structure PluginResult where
  plugin_name : Str
  event_id : Str
  success : Bool
  stdout : Option Str := none
  stderr : Option Str := none
  exit_code : Int := 0
  duration_ms : Nat := 0
  error : Option Str := none
deriving DecidableEq

/-- The observable behaviour of one container run: how many wall-clock
seconds `proc.communicate()` would take, what it writes, and its return code
(`none` models a `returncode` of Python `None`, coerced to 0). -/
structure ContainerRun where
  duration : Nat
  stdout : Str := []
  stderr : Str := []
  returncode : Option Int := some 0

/-- SandboxExecutor.execute composed with `_run_container`:
`asyncio.wait_for(proc.communicate(), timeout=self.config.timeout_sec)`
completes when the run fits in the sandbox config's `timeout_sec`, and on
expiry the container is killed (second component `true`) and the result is
`success=false` with `error = f"Timeout after {self.config.timeout_sec}s"`. -/
def sandbox_execute (config : SandboxConfig) (plugin_config : PluginConfig)
    (task_event_id : Str) (run : ContainerRun) : PluginResult × Bool :=
  if run.duration ≤ config.timeout_sec then
    ({ plugin_name := plugin_config.name
       event_id := task_event_id
       success := (run.returncode.getD 0 == 0)
       stdout := some run.stdout
       stderr := some run.stderr
       exit_code := run.returncode.getD 0
       duration_ms := run.duration * 1000 }, false)
  else
    ({ plugin_name := plugin_config.name
       event_id := task_event_id
       success := false
       error := some ("Timeout after ".data ++ natChars config.timeout_sec ++ "s".data)
       duration_ms := config.timeout_sec * 1000 }, true)

end PluginManager

namespace GoalScheduler

/-- GoalState from goal_scheduler/models.py. -/
inductive GoalState where
  | pending
  | in_progress
  | failed
  | succeeded
  | paused
deriving DecidableEq

/-- StepType from goal_scheduler/models.py. -/
inductive StepType where
  | plugin
  | bus_event
  | internal
deriving DecidableEq

/-- RetryConfig from goal_scheduler/models.py. -/
structure RetryConfig where
  attempts : Nat := 3
  backoff_sec : Nat := 30

/-- GoalStep from goal_scheduler/models.py; `type` is reserved in Lean, so the
step type field is `type'`.  `timeout_sec` is a Python `int` (default 60). -/
structure GoalStep where
  id : Str
  type' : StepType
  plugin : Option Str := none
  topic : Option Str := none
  event_type : Option Str := none
  params : Option (List (Str × PyVal)) := none
  payload_template : Option Str := none
  timeout_sec : Int := 60

/-- GoalConfig from goal_scheduler/models.py (the fields the scheduler
consults). -/
structure GoalConfig where
  id : Str
  name : Str
  schedule : Option Str := none
  steps : List GoalStep
  retry : RetryConfig := {}
  timeout_sec : Int := 300
  enabled : Bool := true

/-- GoalInstance from goal_scheduler/models.py. -/
structure GoalInstance where
  id : Str
  goal_id : Str
  state : GoalState := GoalState.pending
  current_step : Nat := 0
  next_run_ts : Option Int := none
  fail_count : Nat := 0
  last_error : Option Str := none
  started_at : Option Nat := none
  completed_at : Option Nat := none
  trigger_event : Option PyVal := none
  step_results : List (Str × PyVal) := []

/-- GoalStorage.increment_step from goal_scheduler/storage.py: store the step
result under the key `f"step_{instance.current_step}"` and advance
`current_step` by one. -/
def increment_step (inst : GoalInstance) (step_result : PyVal) : GoalInstance :=
  let step_id := "step_".data ++ natChars inst.current_step
  { inst with
    step_results := assocSet inst.step_results step_id step_result
    current_step := inst.current_step + 1 }

/-- StepExecutor._execute_internal_step from goal_scheduler/executor_simple.py:
return `{"status": "completed", "step_id": step.id, "params": params}` for the
already-rendered params. -/
def execute_internal_step (step : GoalStep) (params : List (Str × PyVal)) : PyVal :=
  PyVal.dict
    [ ("status".data, PyVal.str "completed".data)
    , ("step_id".data, PyVal.str step.id)
    , ("params".data, PyVal.dict params) ]

/-- The deadline `GoalScheduler._execute_steps` passes to `asyncio.wait_for`:
`step.timeout_sec or goal_config.timeout_sec`, where a Python `or` falls back
exactly when `step.timeout_sec` is the falsy integer 0. -/
def step_timeout (step : GoalStep) (goal_config : GoalConfig) : Int :=
  if step.timeout_sec = 0 then goal_config.timeout_sec else step.timeout_sec

/-- One iteration of the step loop of `_execute_steps`, abstracted over the
wall-clock seconds the step body would take: the step result is returned when
the duration fits the `step_timeout` deadline, and otherwise the
`asyncio.TimeoutError` branch reports
`f"Step {step.id} timed out after {step.timeout_sec}s"`. -/
def run_step_with_timeout (goal_config : GoalConfig) (step : GoalStep)
    (duration : Int) (result : PyVal) : Except Str PyVal :=
  if step_timeout step goal_config < duration then
    Except.error ("Step ".data ++ step.id ++ " timed out after ".data ++
      intChars step.timeout_sec ++ "s".data)
  else
    Except.ok result

/-- GoalScheduler._calculate_next_run from goal_scheduler/scheduler.py.  The
`@every` branch takes the second whitespace-separated word, strips trailing
`s`, parses it with `int(...)`, and returns `now + interval`; any exception
(missing word, malformed int) yields `None`.  The croniter branch is outside
the embedded code and is supplied as the oracle `cron_next`. -/
def calculate_next_run (cron_next : Str → Option Int) (schedule : Str)
    (now : Int) : Option Int :=
  if "@every".data.isPrefixOf schedule then
    match (pySplit schedule).get? 1 with
    | none => none
    | some w =>
      match parseInt (pyRstrip 's' w) with
      | none => none
      | some interval => some (now + interval)
  else
    cron_next schedule

end GoalScheduler

namespace TitanBus

/-- A minimal published event on topic `t.v1`, used as concrete test input. -/
def mkTestEvent (id : Str) (p : EventPriority) (retries : Nat) : Event :=
  { event_id := id
    topic := "t.v1".data
    event_type := "test".data
    timestamp := "2024-01-01T00:00:00".data
    payload := []
    meta := { priority := p, retries := retries } }

/-- A limiter holding one token, whose `acquire` at time 0 grants. -/
def grantingLimiter : RateLimiter ℤ :=
  { rate := 1, burst := 1, tokens := 1, last_update := 0 }

/-- A drained limiter, whose `acquire` at time 0 denies. -/
def denyingLimiter : RateLimiter ℤ :=
  { rate := 1, burst := 1, tokens := 0, last_update := 0 }

/-- A handler that always raises. -/
def failingHandler : Handler :=
  { name := "h".data, run := fun _ => Except.error "boom".data }

/-- A handler that always succeeds. -/
def okHandler : Handler :=
  { name := "ok".data, run := fun _ => Except.ok () }

/-- The five-event batch of the priority re-order scenario: published order
E1 low, E2 high, E3 low, E4 high, E5 medium. -/
def exampleBatch : List (Str × Event) :=
  [ ("1".data, mkTestEvent "E1".data EventPriority.low 0)
  , ("2".data, mkTestEvent "E2".data EventPriority.high 0)
  , ("3".data, mkTestEvent "E3".data EventPriority.low 0)
  , ("4".data, mkTestEvent "E4".data EventPriority.high 0)
  , ("5".data, mkTestEvent "E5".data EventPriority.medium 0) ]

end TitanBus

namespace PluginManager

/-- A breaker tracking plugin `p` that the threshold put into DISABLED state
until time 100. -/
def disabledBreaker : CircuitBreaker :=
  { health_data :=
      [ ("p".data,
         { name := "p".data
           state := PluginState.disabled
           consecutive_failures := 5
           total_failures := 5
           total_executions := 5
           disabled_until := some 100 }) ] }

/-- A breaker tracking plugin `p` that an operator paused until time 100. -/
def pausedBreaker : CircuitBreaker :=
  { health_data :=
      [ ("p".data,
         { name := "p".data
           state := PluginState.paused
           disabled_until := some 100 }) ] }

/-- A plugin whose own `timeout_sec` (5) is smaller than the sandbox
configuration default (60). -/
def slowPlugin : PluginConfig :=
  { name := "slow".data
    version := "1.0.0".data
    entrypoint := "python main.py".data
    timeout_sec := 5 }

end PluginManager

namespace GoalScheduler

/-- A step whose own `timeout_sec` (600) exceeds the goal's (300). -/
def bigStep : GoalStep :=
  { id := "s1".data, type' := StepType.internal, timeout_sec := 600 }

/-- A goal with `timeout_sec = 300` around `bigStep`. -/
def smallGoal : GoalConfig :=
  { id := "g".data, name := "g".data, steps := [bigStep], timeout_sec := 300 }

/-- The internal step of the goal happy-path scenario:
`{id: "noop", params: {msg: "hi"}}`. -/
def noopStep : GoalStep :=
  { id := "noop".data
    type' := StepType.internal
    params := some [("msg".data, PyVal.str "hi".data)] }

/-- A freshly created instance (current_step 0, no results yet). -/
def freshInstance : GoalInstance :=
  { id := "g1_1".data, goal_id := "g1".data }

end GoalScheduler

namespace TitanBus

theorem mem_insertDesc {α : Type} {w : α → Nat} {x z : α} :
    ∀ {l : List α}, z ∈ insertDesc w x l → z = x ∨ z ∈ l := by
  intro l
  induction l with
  | nil =>
    intro h
    simp only [insertDesc, List.mem_singleton] at h
    exact Or.inl h
  | cons y ys ih =>
    intro h
    simp only [insertDesc] at h
    by_cases hxy : w x ≤ w y
    · rw [if_pos hxy] at h
      rcases List.mem_cons.mp h with rfl | h2
      · exact Or.inr (List.mem_cons_self _ _)
      · rcases ih h2 with rfl | h3
        · exact Or.inl rfl
        · exact Or.inr (List.mem_cons_of_mem _ h3)
    · rw [if_neg hxy] at h
      rcases List.mem_cons.mp h with rfl | h2
      · exact Or.inl rfl
      · exact Or.inr h2

theorem insertDesc_pairwise {α : Type} {w : α → Nat} (x : α) {l : List α}
    (h : l.Pairwise (fun a b => w b ≤ w a)) :
    (insertDesc w x l).Pairwise (fun a b => w b ≤ w a) := by
  induction l with
  | nil => simp [insertDesc]
  | cons y ys ih =>
    rcases List.pairwise_cons.mp h with ⟨hy, hys⟩
    simp only [insertDesc]
    by_cases hxy : w x ≤ w y
    · rw [if_pos hxy]
      refine List.pairwise_cons.mpr ⟨?_, ih hys⟩
      intro z hz
      rcases mem_insertDesc hz with rfl | hz2
      · exact hxy
      · exact hy z hz2
    · rw [if_neg hxy]
      refine List.pairwise_cons.mpr ⟨?_, h⟩
      intro z hz
      rcases List.mem_cons.mp hz with rfl | hz2
      · exact le_of_lt (lt_of_not_le hxy)
      · exact le_trans (hy z hz2) (le_of_lt (lt_of_not_le hxy))

theorem filter_eq_nil_of_pairwise_lt {α : Type} {w : α → Nat} {k : Nat} {y : α}
    {ys : List α} (h : (y :: ys).Pairwise (fun a b => w b ≤ w a)) (hk : w y < k) :
    (y :: ys).filter (fun e => w e == k) = [] := by
  apply List.filter_eq_nil_iff.mpr
  intro a ha
  rcases List.mem_cons.mp ha with rfl | ha2
  · simp only [beq_iff_eq]
    omega
  · have hle : w a ≤ w y := List.rel_of_pairwise_cons h ha2
    simp only [beq_iff_eq]
    omega

theorem insertDesc_filter {α : Type} {w : α → Nat} (x : α) {l : List α}
    (h : l.Pairwise (fun a b => w b ≤ w a)) (k : Nat) :
    (insertDesc w x l).filter (fun e => w e == k)
      = if w x == k then l.filter (fun e => w e == k) ++ [x]
        else l.filter (fun e => w e == k) := by
  induction l with
  | nil =>
    by_cases hx : w x == k <;> simp [insertDesc, hx]
  | cons y ys ih =>
    rcases List.pairwise_cons.mp h with ⟨hy, hys⟩
    simp only [insertDesc]
    by_cases hxy : w x ≤ w y
    · rw [if_pos hxy, List.filter_cons, List.filter_cons, ih hys]
      by_cases hyk : w y == k <;> by_cases hxk : w x == k <;> simp [hyk, hxk]
    · rw [if_neg hxy]
      have hlt : w y < w x := lt_of_not_le hxy
      by_cases hxk : w x == k
      · have hk : w y < k := by
          have := beq_iff_eq.mp hxk
          omega
        rw [List.filter_cons, filter_eq_nil_of_pairwise_lt h hk]
        simp [hxk]
      · rw [List.filter_cons]
        simp [hxk]

theorem foldl_insertDesc_pairwise {α : Type} {w : α → Nat} :
    ∀ (l acc : List α), acc.Pairwise (fun a b => w b ≤ w a) →
      (l.foldl (fun acc x => insertDesc w x acc) acc).Pairwise (fun a b => w b ≤ w a) := by
  intro l
  induction l with
  | nil => intro acc h; exact h
  | cons x xs ih =>
    intro acc h
    exact ih (insertDesc w x acc) (insertDesc_pairwise x h)

theorem foldl_insertDesc_filter {α : Type} {w : α → Nat} (k : Nat) :
    ∀ (l acc : List α), acc.Pairwise (fun a b => w b ≤ w a) →
      (l.foldl (fun acc x => insertDesc w x acc) acc).filter (fun e => w e == k)
        = acc.filter (fun e => w e == k) ++ l.filter (fun e => w e == k) := by
  intro l
  induction l with
  | nil => intro acc h; simp
  | cons x xs ih =>
    intro acc h
    rw [List.foldl_cons, ih (insertDesc w x acc) (insertDesc_pairwise x h),
      insertDesc_filter x h k, List.filter_cons]
    by_cases hxk : w x == k <;> simp [hxk]

theorem sortDesc_pairwise {α : Type} (w : α → Nat) (l : List α) :
    (sortDesc w l).Pairwise (fun a b => w b ≤ w a) :=
  foldl_insertDesc_pairwise l [] List.Pairwise.nil

theorem sortDesc_filter {α : Type} (w : α → Nat) (l : List α) (k : Nat) :
    (sortDesc w l).filter (fun e => w e == k) = l.filter (fun e => w e == k) := by
  have h := foldl_insertDesc_filter (w := w) k l [] List.Pairwise.nil
  simpa [sortDesc] using h

/-- C5: `_process_batch` orders the parsed batch by descending priority weight
(`priority_weights.get(priority, 0)`), the sort is stable — within any weight
class the log order is preserved — and the concrete batch published in order
E1 low, E2 high, E3 low, E4 high, E5 medium is dispatched in order
E2, E4, E5, E1, E3. -/
theorem c5_priority_sort_stable :
    (∀ (pw : List (Str × Nat)) (events : List (Str × Event)),
      (sortBatch pw events).Pairwise (fun a b => batchWeight pw b ≤ batchWeight pw a))
  ∧ (∀ (pw : List (Str × Nat)) (events : List (Str × Event)) (k : Nat),
      (sortBatch pw events).filter (fun e => batchWeight pw e == k)
        = events.filter (fun e => batchWeight pw e == k))
  ∧ (sortBatch default_priority_weights exampleBatch).map Prod.fst
      = ["2".data, "4".data, "5".data, "1".data, "3".data] := by
  refine ⟨?_, ?_, ?_⟩
  · intro pw events
    exact sortDesc_pairwise (batchWeight pw) events
  · intro pw events k
    exact sortDesc_filter (batchWeight pw) events k
  · rfl

end TitanBus

namespace TitanBus

/-- C1: when a handler raises and `event.meta.retries ≥ stream.retry_limit`,
`_process_single_event` first appends to the configured dead-letter stream the
event built by `_send_to_dlq` — event_type `"dead_letter"`, payload wrapping
the original topic, the original message id, the full original event dump,
the error text and the failure timestamp — and then acknowledges the original
entry on the origin stream. -/
theorem c1_retry_exhausted_dlq_then_ack {α : Type} [LinearOrderedRing α]
    (dead_letter_stream : Str) (retry_limit : Nat) (gl tl : RateLimiter α)
    (now1 now2 : α) (handlers : List Handler) (topic msg_id : Str) (ev : Event)
    (utcnow : Str) (effects : List Effect) (err : Str)
    (hg : (gl.acquire now1 1).1 = true)
    (ht : (tl.acquire now2 1).1 = true)
    (hh : runHandlers handlers ev = (effects, some err))
    (hr : retry_limit ≤ ev.meta.retries) :
    process_single_event dead_letter_stream retry_limit gl tl now1 now2 handlers
        topic msg_id ev utcnow
      = effects ++
          [ Effect.xadd dead_letter_stream
              (send_to_dlq dead_letter_stream topic msg_id ev err utcnow)
          , Effect.xack topic msg_id ]
    ∧ (send_to_dlq dead_letter_stream topic msg_id ev err utcnow).event_type
        = "dead_letter".data
    ∧ (send_to_dlq dead_letter_stream topic msg_id ev err utcnow).topic
        = dead_letter_stream
    ∧ (send_to_dlq dead_letter_stream topic msg_id ev err utcnow).payload
        = [ ("original_topic".data, PyVal.str topic)
          , ("original_msg_id".data, PyVal.str msg_id)
          , ("original_event".data, model_dump ev)
          , ("error".data, PyVal.str err)
          , ("failed_at".data, PyVal.str utcnow) ] := by
  have hne : handlers.isEmpty = false := by
    cases handlers with
    | nil => simp [runHandlers] at hh
    | cons h t => rfl
  refine ⟨?_, rfl, rfl, rfl⟩
  unfold process_single_event
  rw [hg, ht, hne, hh]
  simp [hr]

/-- C1 witness: a concrete run — granted rate limits, one raising handler,
`retries = 5 = retry_limit` — produces exactly the handler failure, the DLQ
append, and the acknowledgement, in that order. -/
theorem c1_witness :
    ((grantingLimiter.acquire 0 1).1 = true)
  ∧ (runHandlers [failingHandler] (mkTestEvent "X".data EventPriority.medium 5)
      = ([Effect.handler_run "h".data false], some ("Handler h failed".data)))
  ∧ (5 ≤ (mkTestEvent "X".data EventPriority.medium 5).meta.retries)
  ∧ process_single_event "errors.dlq".data 5 grantingLimiter grantingLimiter
      (0 : ℤ) 0 [failingHandler] "t.v1".data "1-0".data
      (mkTestEvent "X".data EventPriority.medium 5) "2024-01-02T00:00:00".data
      = [Effect.handler_run "h".data false] ++
        [ Effect.xadd "errors.dlq".data
            (send_to_dlq "errors.dlq".data "t.v1".data "1-0".data
              (mkTestEvent "X".data EventPriority.medium 5)
              ("Handler h failed".data) "2024-01-02T00:00:00".data)
        , Effect.xack "t.v1".data "1-0".data ] :=
  ⟨by decide, rfl, by decide,
    (c1_retry_exhausted_dlq_then_ack "errors.dlq".data 5 grantingLimiter
      grantingLimiter 0 0 [failingHandler] "t.v1".data "1-0".data
      (mkTestEvent "X".data EventPriority.medium 5) "2024-01-02T00:00:00".data
      [Effect.handler_run "h".data false] ("Handler h failed".data)
      (by decide) (by decide) rfl (by decide)).1⟩

/-- C2 counterexample: with the global bucket drained, `_process_single_event`
sleeps 100 ms and returns — the event is skipped for this delivery: its
(succeeding) handler is never invoked and the entry is not acknowledged,
contradicting the claim that the consumer retries the acquisition and still
dispatches the event to its handlers afterwards. -/
theorem c2_denial_skips_event :
    process_single_event "errors.dlq".data 5 denyingLimiter grantingLimiter
      (0 : ℤ) 0 [okHandler] "t.v1".data "1-0".data
      (mkTestEvent "E".data EventPriority.medium 0) "2024-01-02T00:00:00".data
      = [Effect.sleep 100]
  ∧ Effect.handler_run "ok".data true ∉ [Effect.sleep 100]
  ∧ Effect.handler_run "ok".data false ∉ [Effect.sleep 100]
  ∧ Effect.xack "t.v1".data "1-0".data ∉ [Effect.sleep 100] :=
  by refine ⟨rfl, ?_, ?_, ?_⟩ <;> simp

/-- C2 amended: on either rate-limit denial `_process_single_event` emits
exactly one 100 ms back-pressure sleep and nothing else — the event is
neither dispatched nor acknowledged nor dead-lettered on that delivery, and
the acquisition is not retried within the call. -/
theorem c2_amended_denial_sleeps_and_returns {α : Type} [LinearOrderedRing α]
    (dead_letter_stream : Str) (retry_limit : Nat) (gl tl : RateLimiter α)
    (now1 now2 : α) (handlers : List Handler) (topic msg_id : Str) (ev : Event)
    (utcnow : Str)
    (h : (gl.acquire now1 1).1 = false ∨
      ((gl.acquire now1 1).1 = true ∧ (tl.acquire now2 1).1 = false)) :
    process_single_event dead_letter_stream retry_limit gl tl now1 now2 handlers
      topic msg_id ev utcnow = [Effect.sleep 100] := by
  unfold process_single_event
  rcases h with h1 | ⟨h1, h2⟩
  · rw [if_pos h1]
  · rw [if_neg (by simp [h1]), if_pos h2]

/-- C2 amended witness: the drained global limiter triggers exactly the
back-pressure sleep. -/
theorem c2_amended_witness :
    ((denyingLimiter.acquire 0 1).1 = false)
  ∧ process_single_event "errors.dlq".data 5 denyingLimiter grantingLimiter
      (0 : ℤ) 0 [okHandler] "t.v1".data "1-0".data
      (mkTestEvent "E2".data EventPriority.medium 0) "2024-01-02T00:00:00".data
      = [Effect.sleep 100] :=
  ⟨by decide,
    c2_amended_denial_sleeps_and_returns "errors.dlq".data 5 denyingLimiter
      grantingLimiter 0 0 [okHandler] "t.v1".data "1-0".data
      (mkTestEvent "E2".data EventPriority.medium 0) "2024-01-02T00:00:00".data
      (Or.inl (by decide))⟩

end TitanBus

namespace PluginManager

/-- C3: the code keeps a DISABLED plugin ineligible even after
`disabled_until` has passed, and a recorded success leaves it DISABLED —
there is no auto-reattempt path for DISABLED plugins (only `reset_plugin`).
The recovery the claim describes exists only for PAUSED plugins: at the same
time reading, a PAUSED plugin whose timer expired is eligible and its next
recorded success re-activates it. -/
theorem c3_disabled_has_no_auto_recovery :
    is_plugin_healthy disabledBreaker 400 "p".data = false
  ∧ ((record_success disabledBreaker 400 "p".data).health_data.lookup "p".data).map
      PluginHealth.state = some PluginState.disabled
  ∧ is_plugin_healthy (record_success disabledBreaker 400 "p".data) 400 "p".data = false
  ∧ is_plugin_healthy pausedBreaker 400 "p".data = true
  ∧ ((record_success pausedBreaker 400 "p".data).health_data.lookup "p".data).map
      PluginHealth.state = some PluginState.active :=
  ⟨by decide, by decide, by decide, by decide, by decide⟩

/-- C10: a plugin name with no health record fails open — `is_plugin_healthy`
answers true, `record_success` leaves the breaker unchanged, and
`record_failure` leaves it unchanged and reports false. -/
theorem c10_unknown_plugin_fails_open (cb : CircuitBreaker) (now : Nat)
    (plugin_name : Str) (error etype : Str) (event_type : Option Str)
    (h : cb.health_data.lookup plugin_name = none) :
    is_plugin_healthy cb now plugin_name = true
  ∧ record_success cb now plugin_name = cb
  ∧ record_failure cb now plugin_name error etype event_type = (cb, false) := by
  refine ⟨?_, ?_, ?_⟩
  · unfold is_plugin_healthy
    rw [h]
  · unfold record_success
    rw [h]
  · unfold record_failure
    rw [h]

/-- C10 witness: an empty breaker has no record for plugin `p`, answers
healthy, and both record operations are no-ops on it. -/
theorem c10_witness :
    (({} : CircuitBreaker).health_data.lookup "p".data = none)
  ∧ (is_plugin_healthy {} 0 "p".data = true
      ∧ record_success {} 0 "p".data = {}
      ∧ record_failure {} 0 "p".data "boom".data "RuntimeError".data none
          = ({}, false)) :=
  ⟨rfl, c10_unknown_plugin_fails_open {} 0 "p".data "boom".data
    "RuntimeError".data none rfl⟩

/-- C4 counterexample: with the sandbox configured at `timeout_sec = 60` and a
plugin whose own `timeout_sec` is 5, a 70 s run is reported as
`Timeout after 60s` — not `Timeout after 5s` — and a 30 s run, which exceeds
the plugin's 5 s budget, completes successfully with no timeout at all: the
wall-clock deadline is the sandbox configuration's, not the plugin's. -/
theorem c4_timeout_uses_sandbox_config :
    (sandbox_execute {} slowPlugin "e1".data { duration := 70 }).1.error
      = some ("Timeout after 60s".data)
  ∧ some ("Timeout after 60s".data) ≠ some ("Timeout after 5s".data)
  ∧ slowPlugin.timeout_sec = 5
  ∧ (sandbox_execute {} slowPlugin "e1".data { duration := 30 }).1.error = none
  ∧ (sandbox_execute {} slowPlugin "e1".data { duration := 30 }).1.success = true
  ∧ (sandbox_execute {} slowPlugin "e1".data { duration := 30 }).2 = false :=
  ⟨by decide, by decide, by decide, by decide, by decide, by decide⟩

/-- C4 amended: the wall-clock deadline of `execute` equals the sandbox
configuration's `timeout_sec`; when the container run exceeds it, the
container is killed and the result is `success=false` with
`error = "Timeout after <N>s"` where N is the sandbox configuration's
`timeout_sec`. -/
theorem c4_amended_sandbox_config_deadline (config : SandboxConfig)
    (plugin_config : PluginConfig) (task_event_id : Str) (run : ContainerRun)
    (h : config.timeout_sec < run.duration) :
    sandbox_execute config plugin_config task_event_id run
      = ({ plugin_name := plugin_config.name
           event_id := task_event_id
           success := false
           error := some ("Timeout after ".data ++ natChars config.timeout_sec ++ "s".data)
           duration_ms := config.timeout_sec * 1000 }, true) := by
  unfold sandbox_execute
  rw [if_neg (by omega)]

/-- C4 amended witness: the default sandbox config (60 s) times out a 70 s
run with the 60 s message. -/
theorem c4_amended_witness :
    (({} : SandboxConfig).timeout_sec < 70)
  ∧ sandbox_execute {} slowPlugin "e1".data { duration := 70 }
      = ({ plugin_name := slowPlugin.name
           event_id := "e1".data
           success := false
           error := some ("Timeout after ".data ++ natChars ({} : SandboxConfig).timeout_sec
             ++ "s".data)
           duration_ms := ({} : SandboxConfig).timeout_sec * 1000 }, true) :=
  ⟨by decide,
    c4_amended_sandbox_config_deadline {} slowPlugin "e1".data { duration := 70 }
      (by decide)⟩

end PluginManager

namespace TitanBus

/-- C6 counterexample: both validators reject the multi-digit version
`t.v10`, although it matches `<name>.v<N>` with N = 10 ≥ 1: the code only
tests the suffixes `.v1` through `.v9` (`range(1, 10)`). -/
theorem c6_multidigit_version_rejected :
    validate_topic "t.v10".data = false
  ∧ validate_versioned_name "t.v10".data = false :=
  ⟨by decide, by decide⟩

/-- C6 amended: both validators accept exactly the topics ending in `.v<i>`
for a single digit i in 1..9 (the Event validator additionally rejecting
blank strings); both agree on every non-blank topic, versions with two or
more digits such as `t.v10` are rejected, as are `t.v0`, unversioned and
blank topics. -/
theorem c6_amended_single_digit_versions :
    (∀ v : Str, v ≠ [] → pyStrip v ≠ [] → validate_topic v = validate_versioned_name v)
  ∧ validate_topic "chat.v1".data = true
  ∧ validate_topic "t.v2".data = true
  ∧ validate_topic "t.v9".data = true
  ∧ validate_topic "t.v10".data = false
  ∧ validate_topic "t.v0".data = false
  ∧ validate_topic "t".data = false
  ∧ validate_topic [] = false
  ∧ validate_topic "   ".data = false
  ∧ validate_versioned_name "memory.v1".data = true
  ∧ validate_versioned_name "errors.dlq".data = false := by
  refine ⟨?_, by decide, by decide, by decide, by decide, by decide, by decide,
    by decide, by decide, by decide, by decide⟩
  intro v h1 h2
  unfold validate_topic validate_versioned_name
  rw [if_neg (not_or.mpr ⟨h1, h2⟩)]

/-- C6 amended witness: `chat.v1` is non-blank and the two validators agree
on it. -/
theorem c6_amended_witness :
    ("chat.v1".data ≠ ([] : Str))
  ∧ (pyStrip "chat.v1".data ≠ [])
  ∧ validate_topic "chat.v1".data = validate_versioned_name "chat.v1".data :=
  ⟨by decide, by decide,
    c6_amended_single_digit_versions.1 "chat.v1".data (by decide) (by decide)⟩

end TitanBus

namespace GoalScheduler

/-- C7 counterexample: for a step with `timeout_sec = 600` inside a goal with
`timeout_sec = 300`, the deadline passed to `asyncio.wait_for` is 600 — the
Python expression is `step.timeout_sec or goal_config.timeout_sec`, not a
minimum — so a 400 s step body completes instead of being timed out after
the goal's 300 s. -/
theorem c7_step_deadline_not_min :
    step_timeout bigStep smallGoal = 600
  ∧ min bigStep.timeout_sec smallGoal.timeout_sec = 300
  ∧ step_timeout bigStep smallGoal ≠ min bigStep.timeout_sec smallGoal.timeout_sec
  ∧ run_step_with_timeout smallGoal bigStep 400 PyVal.nil = Except.ok PyVal.nil
  ∧ smallGoal.timeout_sec < 400 :=
  ⟨by decide, by decide, by decide, rfl, by decide⟩

/-- C7 amended: a step executes under a deadline equal to its own
`timeout_sec` whenever that is nonzero — the goal's `timeout_sec` is only the
fallback for a zero step timeout — so a step whose `timeout_sec` exceeds the
goal's is timed out only past its own, larger, deadline. -/
theorem c7_amended_step_or_goal_deadline (goal_config : GoalConfig)
    (step : GoalStep) (duration : Int) (result : PyVal) :
    (step.timeout_sec ≠ 0 →
      (run_step_with_timeout goal_config step duration result = Except.ok result
        ↔ duration ≤ step.timeout_sec))
  ∧ (step.timeout_sec = 0 →
      (run_step_with_timeout goal_config step duration result = Except.ok result
        ↔ duration ≤ goal_config.timeout_sec)) := by
  constructor
  · intro h
    unfold run_step_with_timeout step_timeout
    rw [if_neg h]
    by_cases hd : step.timeout_sec < duration
    · rw [if_pos hd]
      constructor
      · intro he
        exact absurd he (by simp)
      · intro hle
        exact absurd hle (by omega)
    · rw [if_neg hd]
      exact ⟨fun _ => by omega, fun _ => rfl⟩
  · intro h
    unfold run_step_with_timeout step_timeout
    rw [if_pos h]
    by_cases hd : goal_config.timeout_sec < duration
    · rw [if_pos hd]
      constructor
      · intro he
        exact absurd he (by simp)
      · intro hle
        exact absurd hle (by omega)
    · rw [if_neg hd]
      exact ⟨fun _ => by omega, fun _ => rfl⟩

/-- C7 amended witness: the 600 s step inside the 300 s goal completes a
400 s body. -/
theorem c7_amended_witness :
    (bigStep.timeout_sec ≠ 0)
  ∧ run_step_with_timeout smallGoal bigStep 400 PyVal.nil = Except.ok PyVal.nil :=
  ⟨by decide,
    ((c7_amended_step_or_goal_deadline smallGoal bigStep 400 PyVal.nil).1
      (by decide)).mpr (by decide)⟩

/-- C8 counterexample: after the internal step with declared id `noop`
completes on a fresh instance, `increment_step` stores its result under
`step_0` — the step's position — so `step_results["noop"]` does not exist,
while `current_step` is advanced to 1. -/
theorem c8_step_result_keyed_by_index :
    ((increment_step freshInstance
        (execute_internal_step noopStep [("msg".data, PyVal.str "hi".data)])).step_results.lookup
      "noop".data) = none
  ∧ ((increment_step freshInstance
        (execute_internal_step noopStep [("msg".data, PyVal.str "hi".data)])).step_results.lookup
      "step_0".data)
      = some (execute_internal_step noopStep [("msg".data, PyVal.str "hi".data)])
  ∧ (increment_step freshInstance
        (execute_internal_step noopStep [("msg".data, PyVal.str "hi".data)])).current_step = 1 :=
  ⟨rfl, rfl, rfl⟩

theorem lookup_assocSet (m : List (Str × PyVal)) (k : Str) (v : PyVal) :
    (assocSet m k v).lookup k = some v := by
  induction m with
  | nil => simp [assocSet, List.lookup]
  | cons kv rest ih =>
    obtain ⟨k', v'⟩ := kv
    unfold assocSet
    by_cases h : k' == k
    · rw [if_pos h]
      simp [List.lookup]
    · rw [if_neg h]
      rw [List.lookup]
      have hk : (k == k') = false := by
        have h2 : ¬ k' = k := by
          intro he
          exact h (by simp [he])
        simp
        exact fun he => h2 he.symm
      rw [hk]
      exact ih

/-- C8 amended: after a step completes, `increment_step` persists its result
under the index key `step_<current_step>` (so the first step is retrievable
as `step_results["step_0"]`, not under its declared id), and `current_step`
is incremented by one. -/
theorem c8_amended_index_key (inst : GoalInstance) (step_result : PyVal) :
    (increment_step inst step_result).current_step = inst.current_step + 1
  ∧ (increment_step inst step_result).step_results.lookup
      ("step_".data ++ natChars inst.current_step) = some step_result :=
  ⟨rfl, lookup_assocSet _ _ _⟩

/-- C9 counterexample: the schedule parser accepts `@every 0s` and yields a
next-run time equal to `now` (1000), instead of rejecting it. -/
theorem c9_every_zero_accepted :
    calculate_next_run (fun _ => none) "@every 0s".data 1000 = some 1000 :=
  by decide

/-- C9 amended: the `@every` branch accepts any parsable integer N — zero and
negative included — and returns `now + N`; `@every 0s` yields a next run
equal to now.  Only unparsable intervals are rejected. -/
theorem c9_amended_every_accepts_any_int (cron_next : Str → Option Int) (now : Int) :
    calculate_next_run cron_next "@every 0s".data now = some now
  ∧ calculate_next_run cron_next "@every 3600s".data now = some (now + 3600)
  ∧ calculate_next_run cron_next "@every -5s".data now = some (now + (-5))
  ∧ calculate_next_run cron_next "@every xs".data now = none := by
  refine ⟨?_, rfl, rfl, rfl⟩
  have h : calculate_next_run cron_next "@every 0s".data now = some (now + 0) := rfl
  simpa using h

end GoalScheduler
